import Mathlib

/-!
Verification of the `gpt-local-agent` repository (`agent.py` and the embedded
`blog-api` scaffold) against its natural-language specification.

Paths are modelled as lists of components from the filesystem root
(POSIX semantics).  `Path.resolve()` is modelled as lexical normalization
(`resolveComps`): no symlinks exist in the model.  Python strings are
modelled as Lean `String`s; `str.startswith` is character-list prefix,
which agrees with Python's definition.  The filesystem is an explicit
value (`FS`) holding text files and directories.
-/

namespace Agent

/-- A path component is *clean* when it is neither empty nor a dot entry;
components of a `Path.resolve()` output are always clean. -/
def cleanComp (c : String) : Bool :=
  c ≠ "" && c ≠ "." && c ≠ ".."

/-- All components of the list are clean. -/
def CleanPath (l : List String) : Prop := ∀ c ∈ l, cleanComp c = true

instance (l : List String) : Decidable (CleanPath l) := by
  unfold CleanPath; infer_instance

/-- Auxiliary worker for `resolveComps`: processes components left to right,
popping on `".."`, skipping `"."` and empty components (pathlib never keeps
those), and clamping at the root like POSIX `resolve`. -/
def resolveCompsAux : List String → List String → List String
  | acc, [] => acc
  | acc, c :: t =>
    if c = "" ∨ c = "." then resolveCompsAux acc t
    else if c = ".." then resolveCompsAux acc.dropLast t
    else resolveCompsAux (acc ++ [c]) t

/-- Model of `Path.resolve()` on an absolute component list (no symlinks). -/
def resolveComps (l : List String) : List String :=
  resolveCompsAux [] l

/-- Model of `str(path)` for an absolute path: `"/"` joined components,
`"/"` alone for the root — exactly CPython's `PurePosixPath.__str__`. -/
def renderFrom : List String → String
  | [] => ""
  | c :: t => "/" ++ c ++ renderFrom t

def renderAbs (l : List String) : String :=
  if l.isEmpty then "/" else renderFrom l

/-- Join a list of strings with a separator (model of `"/".join` /
`"\n".join`). -/
def joinWith (sep : String) : List String → String
  | [] => ""
  | [x] => x
  | x :: y :: t => x ++ sep ++ joinWith sep (y :: t)

/-- Model of `str(path)` for a workspace-relative path (`Path.as_posix` /
`str` of a relative `Path`); the empty relative path prints as `"."`. -/
def renderRel (l : List String) : String :=
  if l.isEmpty then "." else joinWith "/" l

/-- Model of Python `a.startswith(b)`: character-prefix test. -/
def pyStartsWith (pre s : String) : Bool :=
  pre.data.isPrefixOf s.data

/-- Model of Python `s.lower()` (character-wise lowering; the inputs routed
through it here are ASCII command words). -/
def pyLower (s : String) : String :=
  String.mk (s.data.map Char.toLower)

/-- Model of Python `str.strip()`: drop whitespace from both ends. -/
def pyStrip (s : String) : String :=
  String.mk (((s.data.dropWhile Char.isWhitespace).reverse.dropWhile
    Char.isWhitespace).reverse)

/-- Model of `s.replace("\\", "/")` (single-character pattern). -/
def backslashToSlash (s : String) : String :=
  String.mk (s.data.map fun c => if c = '\\' then '/' else c)

/-- Does the string begin with `'/'`?  Model of `startswith("/")` and of
POSIX `os.path.isabs`. -/
def hasLeadingSlash (s : String) : Bool :=
  s.data.head? = some '/'

/-- Model of `s.lstrip("/")`: drop every leading slash. -/
def stripLeadingSlashes (s : String) : String :=
  String.mk (s.data.dropWhile fun c => c = '/')

/-- Split on `'/'` keeping the accumulated component; worker for
`splitComponents`. -/
def splitOnSlashAux : List Char → List Char → List (List Char)
  | [], acc => [acc.reverse]
  | c :: t, acc =>
    if c = '/' then acc.reverse :: splitOnSlashAux t []
    else splitOnSlashAux t (c :: acc)

/-- The components pathlib extracts from a relative path string: split on
`'/'`, dropping empty components and `"."` (pathlib normalizes both away,
keeping `".."`). -/
def splitComponents (s : String) : List String :=
  ((splitOnSlashAux s.data []).map String.mk).filter fun c => c ≠ "" && c ≠ "."

/-- Model of `get_current_abs_dir`: absolute current directory,
`(WORKSPACE / CURRENT_DIR).resolve()`. -/
def get_current_abs_dir (ws cur : List String) : List String :=
  resolveComps (ws ++ cur)

/-- The input-normalization step of `safe_path`: backslashes to forward
slashes, whitespace trimmed, empty defaulting to `"."`. -/
def pyNormalizeInput (relative_path : String) : String :=
  let p1 := pyStrip (backslashToSlash relative_path)
  if p1 = "" then "." else p1

/-- Model of `safe_path` from `agent.py`: normalize separators and whitespace, default
empty to `"."`, route a leading-slash path to the workspace root (stripping
the slashes) and any other path to the current absolute directory, resolve,
then admit the target iff `str(target).startswith(str(WORKSPACE))`; otherwise
raise `ValueError` (returned as `.error` with the exact message). -/
def safe_path (ws cur : List String) (relative_path : String) : Except String (List String) :=
  let p2 := pyNormalizeInput relative_path
  let pair :=
    if hasLeadingSlash p2 then (ws, stripLeadingSlashes p2)
    else (get_current_abs_dir ws cur, p2)
  let target := resolveComps (pair.1 ++ splitComponents pair.2)
  if pyStartsWith (renderAbs ws) (renderAbs target) then .ok target
  else .error ("Refusing to access path outside workspace: " ++ renderAbs target)

/-! ### Basic lemmas about path resolution -/

theorem resolveCompsAux_step (acc : List String) (c : String) (t : List String) :
    resolveCompsAux acc (c :: t) =
      if c = "" ∨ c = "." then resolveCompsAux acc t
      else if c = ".." then resolveCompsAux acc.dropLast t
      else resolveCompsAux (acc ++ [c]) t := rfl

theorem resolveCompsAux_clean (l : List String) :
    ∀ acc, CleanPath acc → CleanPath (resolveCompsAux acc l) := by
  induction l with
  | nil => intro acc h; exact h
  | cons c t ih =>
    intro acc h
    rw [resolveCompsAux_step]
    by_cases h1 : c = "" ∨ c = "."
    · rw [if_pos h1]; exact ih acc h
    · rw [if_neg h1]
      by_cases h2 : c = ".."
      · rw [if_pos h2]
        exact ih acc.dropLast fun x hx => h x (List.dropLast_subset _ hx)
      · rw [if_neg h2]
        refine ih (acc ++ [c]) ?_
        intro x hx
        rcases List.mem_append.mp hx with hx | hx
        · exact h x hx
        · rcases List.mem_singleton.mp hx with rfl
          rw [not_or] at h1
          simp only [cleanComp, Bool.and_eq_true, decide_eq_true_eq]
          exact ⟨⟨h1.1, h1.2⟩, h2⟩

theorem resolveComps_clean (l : List String) : CleanPath (resolveComps l) :=
  resolveCompsAux_clean l [] (by intro c h; cases h)

theorem resolveCompsAux_of_clean (l : List String) (hl : CleanPath l) :
    ∀ acc, resolveCompsAux acc l = acc ++ l := by
  induction l with
  | nil => intro acc; rw [List.append_nil]; rfl
  | cons c t ih =>
    intro acc
    have hc : cleanComp c = true := hl c (by simp)
    have ht : CleanPath t := fun x hx => hl x (by simp [hx])
    simp only [cleanComp, Bool.and_eq_true, decide_eq_true_eq] at hc
    rw [resolveCompsAux_step, if_neg (by simp [hc.1.1, hc.1.2]),
      if_neg (by simp [hc.2]), ih ht]
    simp

/-- Resolution is the identity on clean absolute paths. -/
theorem resolveComps_of_clean (l : List String) (hl : CleanPath l) :
    resolveComps l = l := by
  simpa using resolveCompsAux_of_clean l hl []

theorem renderFrom_append (l r : List String) :
    renderFrom (l ++ r) = renderFrom l ++ renderFrom r := by
  induction l with
  | nil => simp [renderFrom]
  | cons c t ih => simp [renderFrom, ih, String.append_assoc]

/-- The string `str(ws)` is a string prefix of `str(ws ++ r)` — the workspace passes its
own `startswith` test on any extension of itself. -/
theorem pyStartsWith_renderAbs_append (l r : List String) :
    pyStartsWith (renderAbs l) (renderAbs (l ++ r)) = true := by
  cases r with
  | nil => simp [pyStartsWith, List.isPrefixOf_iff_prefix]
  | cons c t =>
    cases l with
    | nil =>
      have h1 : renderAbs ([] : List String) = "/" := by simp [renderAbs]
      have h2 : renderAbs ([] ++ c :: t) = ("/" ++ c) ++ renderFrom t := by
        simp [renderAbs, renderFrom]
      rw [h1, h2, String.append_assoc]
      simp only [pyStartsWith, String.data_append, List.isPrefixOf_iff_prefix]
      exact List.prefix_append _ _
    | cons a u =>
      have h1 : renderAbs (a :: u) = renderFrom (a :: u) := by simp [renderAbs]
      have h2 : renderAbs ((a :: u) ++ (c :: t)) =
          renderFrom (a :: u) ++ renderFrom (c :: t) := by
        rw [← renderFrom_append]; simp [renderAbs]
      rw [h1, h2]
      simp only [pyStartsWith, String.data_append, List.isPrefixOf_iff_prefix]
      exact List.prefix_append _ _

/-! ### Filesystem model

Text files and directories, keyed by absolute component paths.  Tool
implementations return the (possibly mutated) filesystem together with
`.ok result` for a returned string or `.error e` for a raised Python
exception (mutations performed before a raise are kept, as in CPython). -/

structure FS where
  files : List (List String × String)
  dirs : List (List String)

def FS.lookupFile (fs : FS) (p : List String) : Option String :=
  fs.files.lookup p

def FS.isFile (fs : FS) (p : List String) : Bool :=
  (fs.lookupFile p).isSome

def FS.isDir (fs : FS) (p : List String) : Bool :=
  fs.dirs.contains p

def FS.pathExists (fs : FS) (p : List String) : Bool :=
  fs.isFile p || fs.isDir p

/-- All strict ancestor paths of `p` (what `p.parent.mkdir(parents=True,
exist_ok=True)` brings into existence). -/
def ancestors (p : List String) : List (List String) :=
  (List.range p.length).map fun n => p.take n

/-- Model of `p.relative_to(WORKSPACE)`: succeeds iff the workspace components are a
prefix of `p`, else the Python call raises `ValueError`. -/
def relativeToWs (ws p : List String) : Option (List String) :=
  if ws.isPrefixOf p then some (p.drop ws.length) else none

/-- The `ValueError` message raised by `Path.relative_to`. -/
def relativeToErr (ws p : List String) : String :=
  "ValueError: " ++ renderAbs p ++ " is not in the subpath of " ++ renderAbs ws

/-! ### Tool implementations (`agent.py`) -/

/-- Children seen by `tool_list_directory`: names under `p` paired with whether the
entry is a directory, with the `sorted(p.iterdir())` order (same parent, so
sorting Path objects is sorting names). -/
def childName (p d : List String) : Option String :=
  if p.isPrefixOf d && d.length = p.length + 1 then d.getLast? else none

def FS.childEntries (fs : FS) (p : List String) : List (String × Bool) :=
  let dirNames := (fs.dirs.filterMap (childName p)).map fun n => (n, true)
  let fileNames := ((fs.files.map Prod.fst).filterMap (childName p)).map
    fun n => (n, false)
  List.insertionSort (fun a b => a.1 ≤ b.1) (dirNames ++ fileNames)

def tool_list_directory (fs : FS) (ws cur : List String) (path : String) :
    FS × Except String String :=
  match safe_path ws cur path with
  | .error e => (fs, .error e)
  | .ok p =>
    if ¬ fs.pathExists p then
      match relativeToWs ws p with
      | none => (fs, .error (relativeToErr ws p))
      | some rel => (fs, .ok ("Directory does not exist: " ++ renderRel rel))
    else if ¬ fs.isDir p then
      match relativeToWs ws p with
      | none => (fs, .error (relativeToErr ws p))
      | some rel => (fs, .ok ("Path is not a directory: " ++ renderRel rel))
    else
      let entries := (fs.childEntries p).map fun e =>
        (if e.2 then "/ " else "  ") ++ e.1
      let listing := if entries.isEmpty then "(empty directory)"
        else joinWith "\n" entries
      match relativeToWs ws p with
      | none => (fs, .error (relativeToErr ws p))
      | some rel =>
        (fs, .ok ("Listing for " ++ renderRel rel ++ ":\n" ++ listing))

def tool_create_directory (fs : FS) (ws cur : List String) (path : String) :
    FS × Except String String :=
  match safe_path ws cur path with
  | .error e => (fs, .error e)
  | .ok p =>
    let fs1 : FS := { fs with dirs := ancestors p ++ [p] ++ fs.dirs }
    match relativeToWs ws p with
    | none => (fs1, .error (relativeToErr ws p))
    | some rel => (fs1, .ok ("Created directory: " ++ renderRel rel))

def tool_write_file (fs : FS) (ws cur : List String)
    (path content : String) (append : Bool) : FS × Except String String :=
  match safe_path ws cur path with
  | .error e => (fs, .error e)
  | .ok p =>
    let fs1 : FS := { fs with dirs := ancestors p ++ fs.dirs }
    let old := if append then (fs1.lookupFile p).getD "" else ""
    let fs2 : FS := { fs1 with
      files := (p, old ++ content) :: fs1.files.filter fun e => e.1 ≠ p }
    match relativeToWs ws p with
    | none => (fs2, .error (relativeToErr ws p))
    | some rel =>
      (fs2, .ok ((if append then "Appended to" else "Wrote file") ++ ": "
        ++ renderRel rel ++ " (length=" ++ toString content.length
        ++ " characters)"))

/-- Model of `text[:n]` on a Python string: first `n` characters. -/
def strTake (s : String) (n : Nat) : String :=
  String.mk (s.data.take n)

def tool_read_file (fs : FS) (ws cur : List String) (path : String) :
    FS × Except String String :=
  match safe_path ws cur path with
  | .error e => (fs, .error e)
  | .ok p =>
    if ¬ fs.pathExists p || ¬ fs.isFile p then
      match relativeToWs ws p with
      | none => (fs, .error (relativeToErr ws p))
      | some rel => (fs, .ok ("File does not exist: " ++ renderRel rel))
    else
      let text := (fs.lookupFile p).getD ""
      if text.length > 4000 then
        (fs, .ok ("File content (truncated to 4000 characters):\n"
          ++ strTake text 4000 ++ "\n...[truncated]..."))
      else
        match relativeToWs ws p with
        | none => (fs, .error (relativeToErr ws p))
        | some rel =>
          (fs, .ok ("File content of " ++ renderRel rel ++ ":\n" ++ text))

/-- Model of `tool_run_command`: running a shell line is outside the model's reach;
its observable output is abstracted by an oracle from the command and the
current directory.  It never touches `CURRENT_DIR`. -/
def tool_run_command (sh : List String → String → String)
    (fs : FS) (ws cur : List String) (command : String) :
    FS × Except String String :=
  (fs, .ok (sh (get_current_abs_dir ws cur) command))

/-! ### `cd` handling (`change_directory`) -/

/-- Strip one layer of matching surrounding quotes, then `strip()` again —
the quote-handling step of `change_directory`. -/
def stripQuotes (s : String) : String :=
  let l := s.data
  match l.head?, l.getLast? with
  | some a, some b =>
    if 2 ≤ l.length && (a = b) && (a = '\'' || a = '"') then
      pyStrip (String.mk ((l.drop 1).dropLast))
    else s
  | _, _ => s

/-- Candidate directory: `Path(arg).resolve()` when `os.path.isabs(arg)`,
else `(get_current_abs_dir() / arg).resolve()`. -/
def cdCandidate (ws cur : List String) (a : String) : List String :=
  if hasLeadingSlash a then resolveComps (splitComponents a)
  else resolveComps (get_current_abs_dir ws cur ++ splitComponents a)

def rootMsg : String := "Current directory: / (workspace root)"

/-- Display helper used in `change_directory`'s failure messages: relative
path if `relative_to` succeeds, else the absolute candidate. -/
def relDisplay (ws cand : List String) : String :=
  match relativeToWs ws cand with
  | some rel => renderRel rel
  | none => renderAbs cand

/-- Model of `change_directory` from `agent.py`.  Returns `.ok (newCurrentDir,
message)` for a normal return, `.error e` when the final
`candidate.relative_to(WORKSPACE)` raises `ValueError` (the `startswith`
guard passes for sibling paths whose name extends the workspace's). -/
def change_directory (fs : FS) (ws cur : List String) (new_path : String) :
    Except String (List String × String) :=
  let a0 := pyStrip new_path
  if a0 = "" then .ok ([], rootMsg)
  else
    let a := stripQuotes a0
    let cand := cdCandidate ws cur a
    if cand = ws then .ok ([], rootMsg)
    else if ¬ pyStartsWith (renderAbs ws) (renderAbs cand) then
      .ok (cur, "Refusing to cd outside workspace root: " ++ renderAbs cand)
    else if ¬ fs.pathExists cand then
      .ok (cur, "Directory does not exist: " ++ relDisplay ws cand)
    else if ¬ fs.isDir cand then
      .ok (cur, "Not a directory: " ++ relDisplay ws cand)
    else
      match relativeToWs ws cand with
      | none => .error (relativeToErr ws cand)
      | some rel => .ok (rel, "Current directory: /" ++ joinWith "/" rel)

/-! ### Orchestrator dispatch (`run_agent_turn`, lines 482–520) -/

/-- The five tool names of `TOOL_IMPLEMENTATIONS`, as a closed type. -/
inductive ToolId
  | list_directory | create_directory | write_file | read_file | run_command
deriving DecidableEq

/-- Name-keyed lookup into `TOOL_IMPLEMENTATIONS` (`dict.get`). -/
def lookupTool (name : String) : Option ToolId :=
  if name = "list_directory" then some .list_directory
  else if name = "create_directory" then some .create_directory
  else if name = "write_file" then some .write_file
  else if name = "read_file" then some .read_file
  else if name = "run_command" then some .run_command
  else none

/-- A parsed JSON argument object, restricted to the keys the schema
declares.  `none` fields are absent keys. -/
structure ToolArgs where
  path : Option String := none
  content : Option String := none
  append : Option Bool := none
  command : Option String := none

/-- Model of `tool_func(**args)`: apply a tool implementation to keyword arguments;
a missing required argument raises `TypeError` (caught by the dispatcher
like any other implementation failure). -/
def callTool (sh : List String → String → String) (fs : FS)
    (ws cur : List String) : ToolId → ToolArgs → FS × Except String String
  | .list_directory, a => tool_list_directory fs ws cur (a.path.getD ".")
  | .create_directory, a =>
    match a.path with
    | some p => tool_create_directory fs ws cur p
    | none => (fs, .error "TypeError: missing required argument: path")
  | .write_file, a =>
    match a.path, a.content with
    | some p, some c => tool_write_file fs ws cur p c (a.append.getD false)
    | _, _ =>
      (fs, .error "TypeError: missing required argument: path, content")
  | .read_file, a =>
    match a.path with
    | some p => tool_read_file fs ws cur p
    | none => (fs, .error "TypeError: missing required argument: path")
  | .run_command, a =>
    match a.command with
    | some c => tool_run_command sh fs ws cur c
    | none => (fs, .error "TypeError: missing required argument: command")

/-- One tool call of the orchestrator loop: the argument payload arrives
already parsed (`.error e` models a `json.JSONDecodeError` from
`json.loads`); every outcome becomes a tool-result text, never a raised
exception. -/
def dispatchToolCall (sh : List String → String → String) (fs : FS)
    (ws cur : List String) (name : String)
    (payload : Except String ToolArgs) : FS × String :=
  match payload with
  | .error e =>
    (fs, "Error: could not parse arguments for tool '" ++ name ++ "': " ++ e)
  | .ok args =>
    match lookupTool name with
    | none => (fs, "Error: unknown tool '" ++ name ++ "'.")
    | some t =>
      match callTool sh fs ws cur t args with
      | (fs1, .ok r) => (fs1, r)
      | (fs1, .error e) =>
        (fs1, "Error while running tool '" ++ name ++ "': " ++ e)

/-! ### CLI main loop line handling (`main`) -/

/-- What `main` does with one stripped input line. -/
inductive LineAction
  | exitLoop
  | blank
  | nav (arg : String)
  | toModel (input : String)
deriving DecidableEq

/-- Python `s.split(maxsplit=1)` on an already-stripped line: the first
whitespace-delimited word and the remainder (leading whitespace removed),
the remainder empty when there is no second part. -/
def splitFirstWord (s : String) : String × String :=
  let l := s.data
  let w := l.takeWhile fun c => ¬ c.isWhitespace
  let rest := (l.drop w.length).dropWhile Char.isWhitespace
  (String.mk w, String.mk rest)

/-- The routing in `main`: strip the line; skip blanks; `"exit"`/`"quit"`
(lowercased) end the loop; a lowercased line starting with `"cd"` is handled
as navigation with the text after the first word as argument; everything
else goes to the model. -/
def classifyLine (raw : String) : LineAction :=
  let s := pyStrip raw
  if s = "" then .blank
  else if pyLower s = "exit" ∨ pyLower s = "quit" then .exitLoop
  else if pyStartsWith "cd" (pyLower s) then .nav (splitFirstWord s).2
  else .toModel s

/-! ### Blog-api scaffold: the two `create_post` variants -/

structure PostRec where
  id : Nat
  title : String
  content : String
deriving DecidableEq

/-- The scaffold's database: persisted posts plus the server's next
auto-assigned identifier (identifiers are server-assigned and fresh). -/
structure BlogDB where
  posts : List PostRec
  nextId : Nat
deriving DecidableEq

/-- Sync-variant `create_post` (`app/routers/posts.py`): reject with an HTTP
400 "Post already exists" when any persisted record has the same title,
else persist and return the new record. -/
def sync_create_post (db : BlogDB) (title content : String) :
    BlogDB × Except (Nat × String) PostRec :=
  if db.posts.any fun q => q.title = title then
    (db, .error (400, "Post already exists"))
  else
    let p : PostRec := ⟨db.nextId, title, content⟩
    ({ posts := db.posts ++ [p], nextId := db.nextId + 1 }, .ok p)

/-- Async-variant `create_post` (`app/api/posts.py`): persist
unconditionally — no uniqueness check of any kind. -/
def async_create_post (db : BlogDB) (title content : String) :
    BlogDB × PostRec :=
  let p : PostRec := ⟨db.nextId, title, content⟩
  ({ posts := db.posts ++ [p], nextId := db.nextId + 1 }, p)

/-! ## Claim theorems -/

/-- C1: the claim says every path that canonicalizes outside WorkspaceRoot
makes `safe_path` raise a PathEscape condition (and hence every returned
path lies under WorkspaceRoot, with no out-of-workspace filesystem
mutation).  The code instead guards with
`str(target).startswith(str(WORKSPACE))`, a bare string-prefix test: the
input `"../agent_workspacex"` canonicalizes to the sibling directory
`<base>/agent_workspacex`, which is outside the workspace yet extends its
name, so `safe_path` returns it instead of raising — and `write_file` on
that input then creates a file outside the workspace before failing.  This
contradicts `safe_path`'s own docstring ("prevent escaping it"): a code
bug, exhibited here at a concrete input. -/
theorem safe_path_sibling_escape :
    safe_path ["home", "agent_workspace"] [] "../agent_workspacex" =
      .ok ["home", "agent_workspacex"] ∧
    ¬ (["home", "agent_workspace"] <+: ["home", "agent_workspacex"]) ∧
    (tool_write_file ⟨[], []⟩ ["home", "agent_workspace"] []
        "../agent_workspacex" "x" false).1.lookupFile
      ["home", "agent_workspacex"] = some "x" := by
  refine ⟨rfl, by decide, rfl⟩

/-- C7: an input that (after normalization) starts with `'/'` is stripped of
its leading slashes and joined to WorkspaceRoot: the result never depends on
the current directory, and for example `safe_path("/a/b")` yields
`WorkspaceRoot/a/b` for every clean workspace path and every current
directory. -/
theorem safe_path_root_relative (ws cur₁ cur₂ : List String) (q : String)
    (hws : CleanPath ws)
    (hq : hasLeadingSlash (pyNormalizeInput q) = true) :
    safe_path ws cur₁ q = safe_path ws cur₂ q ∧
    safe_path ws cur₁ "/a/b" = .ok (ws ++ ["a", "b"]) := by
  constructor
  · simp only [safe_path, hq, if_true]
  · have hclean : CleanPath (ws ++ ["a", "b"]) := by
      intro c hc
      rcases List.mem_append.mp hc with hc | hc
      · exact hws c hc
      · simp only [List.mem_cons, List.not_mem_nil, or_false] at hc
        rcases hc with rfl | rfl <;> decide
    have hsplit : splitComponents (stripLeadingSlashes (pyNormalizeInput "/a/b"))
        = ["a", "b"] := rfl
    have hlead : hasLeadingSlash (pyNormalizeInput "/a/b") = true := rfl
    simp only [safe_path, hlead, if_true, hsplit,
      resolveComps_of_clean _ hclean, pyStartsWith_renderAbs_append, if_true]

/-- Witness for C7 at concrete inputs. -/
theorem safe_path_root_relative_witness :
    safe_path ["home", "agent_workspace"] ["x"] "/a/b" =
      safe_path ["home", "agent_workspace"] ["y", "z"] "/a/b" ∧
    safe_path ["home", "agent_workspace"] ["x"] "/a/b" =
      .ok (["home", "agent_workspace"] ++ ["a", "b"]) :=
  safe_path_root_relative ["home", "agent_workspace"] ["x"] ["y", "z"]
    "/a/b" (by decide) (by decide)

/-- C10: every input line whose lowercased, stripped form begins with the two
characters `"cd"` — including a longer first word such as `"cdrom"` — is
handled by the CLI loop as a navigation command (never sent to the model),
with the text after the first word as argument; in particular the
single-word line `"cdrom"` becomes navigation with an empty argument, and
`change_directory` on an empty argument resets the current directory to the
workspace root. -/
theorem cli_cd_prefix_capture (raw : String)
    (h : pyStartsWith "cd" (pyLower (pyStrip raw)) = true) :
    classifyLine raw = .nav (splitFirstWord (pyStrip raw)).2 ∧
    classifyLine "cdrom" = .nav "" ∧
    ∀ fs ws cur, change_directory fs ws cur "" = .ok ([], rootMsg) := by
  refine ⟨?_, rfl, fun fs ws cur => rfl⟩
  have hs : ¬ (pyStrip raw = "") := by
    intro h0; rw [h0] at h; exact absurd h (by decide)
  have hexit : ¬ (pyLower (pyStrip raw) = "exit" ∨
      pyLower (pyStrip raw) = "quit") := by
    rintro (h0 | h0) <;> rw [h0] at h <;> exact absurd h (by decide)
  simp only [classifyLine, if_neg hs, if_neg hexit, h, if_true]

/-- Witness for C10 on the line `"cdrom"`. -/
theorem cli_cd_prefix_capture_witness :
    classifyLine "cdrom" = .nav (splitFirstWord (pyStrip "cdrom")).2 :=
  (cli_cd_prefix_capture "cdrom" (by decide)).1

/-- C8: with a fresh title, the sync-variant `create_post` persists a first
record, and a second create with the same title fails with the 400 "Post
already exists" Conflict and persists nothing (the database is returned
unchanged); the async-variant `create_post` performs no uniqueness check,
so two creations with the same title both succeed and receive distinct
server-assigned identifiers. -/
theorem create_post_title_uniqueness (db : BlogDB) (t c₁ c₂ : String)
    (hfresh : ∀ q ∈ db.posts, q.title ≠ t) :
    (∃ db₁ p₁, sync_create_post db t c₁ = (db₁, .ok p₁) ∧
      sync_create_post db₁ t c₂ =
        (db₁, .error (400, "Post already exists"))) ∧
    (async_create_post db t c₁).2.id ≠
      (async_create_post (async_create_post db t c₁).1 t c₂).2.id := by
  constructor
  · have hany : (db.posts.any fun q => q.title = t) = false := by
      rw [List.any_eq_false]
      intro q hq
      simpa using hfresh q hq
    refine ⟨⟨db.posts ++ [⟨db.nextId, t, c₁⟩], db.nextId + 1⟩,
      ⟨db.nextId, t, c₁⟩, ?_, ?_⟩
    · simp [sync_create_post, hany]
    · simp [sync_create_post, hany, List.any_append]
  · simp only [async_create_post]
    omega

/-- Witness for C8 on an empty database. -/
theorem create_post_title_uniqueness_witness :
    (∃ db₁ p₁,
      sync_create_post ⟨[], 1⟩ "Hello" "first" = (db₁, .ok p₁) ∧
      sync_create_post db₁ "Hello" "second" =
        (db₁, .error (400, "Post already exists"))) ∧
    (async_create_post ⟨[], 1⟩ "Hello" "first").2.id ≠
      (async_create_post (async_create_post ⟨[], 1⟩ "Hello" "first").1
        "Hello" "second").2.id :=
  create_post_title_uniqueness ⟨[], 1⟩ "Hello" "first" "second"
    (by intro q hq; cases hq)

/-- C5 counterexample: the claim promises that *every* navigation argument
whose resolved candidate is outside WorkspaceRoot returns (without raising)
an explanatory message.  With a sibling directory `<base>/agent_workspacex`
present, `cd ../agent_workspacex` resolves to a candidate outside the
workspace, passes the string-prefix guard, exists and is a directory, and
the final `candidate.relative_to(WORKSPACE)` then raises `ValueError` —
`change_directory` raises instead of returning a message. -/
theorem change_directory_sibling_raises :
    change_directory ⟨[], [["home", "agent_workspacex"]]⟩
        ["home", "agent_workspace"] [] "../agent_workspacex" =
      .error ("ValueError: /home/agent_workspacex is not in the subpath of "
        ++ "/home/agent_workspace") ∧
    cdCandidate ["home", "agent_workspace"] []
        (stripQuotes (pyStrip "../agent_workspacex")) =
      ["home", "agent_workspacex"] ∧
    ¬ (["home", "agent_workspace"] <+: ["home", "agent_workspacex"]) :=
  ⟨rfl, rfl, by decide⟩

/-- C5 (amended): for every navigation argument whose candidate *fails the
code's string-prefix test*, or does not exist, or is not a directory,
`change_directory` leaves CurrentDirectory unchanged and returns (without
raising) a message naming the specific reason; a candidate that passes the
string-prefix test without lying component-wise under WorkspaceRoot and
exists as a directory instead raises `ValueError`
(`change_directory_sibling_raises`). -/
theorem change_directory_failure_messages (fs : FS) (ws cur : List String)
    (arg : String) (cand : List String)
    (h0 : ¬ pyStrip arg = "")
    (hcand : cand = cdCandidate ws cur (stripQuotes (pyStrip arg)))
    (hne : ¬ cand = ws) :
    (¬ pyStartsWith (renderAbs ws) (renderAbs cand) = true →
      change_directory fs ws cur arg =
        .ok (cur, "Refusing to cd outside workspace root: "
          ++ renderAbs cand)) ∧
    (pyStartsWith (renderAbs ws) (renderAbs cand) = true →
      fs.pathExists cand = false →
      change_directory fs ws cur arg =
        .ok (cur, "Directory does not exist: " ++ relDisplay ws cand)) ∧
    (pyStartsWith (renderAbs ws) (renderAbs cand) = true →
      fs.pathExists cand = true → fs.isDir cand = false →
      change_directory fs ws cur arg =
        .ok (cur, "Not a directory: " ++ relDisplay ws cand)) := by
  subst hcand
  refine ⟨?_, ?_, ?_⟩
  · intro h1
    simp only [change_directory]
    rw [if_neg h0, if_neg hne, if_pos h1]
  · intro h1 h2
    simp only [change_directory]
    rw [if_neg h0, if_neg hne, if_neg (not_not_intro h1),
      if_pos (by simp [h2])]
  · intro h1 h2 h3
    simp only [change_directory]
    rw [if_neg h0, if_neg hne, if_neg (not_not_intro h1),
      if_neg (by simp [h2]), if_pos (by simp [h3])]

/-- Witness for the amended C5: `cd nonexistent-folder` on an empty
filesystem returns the does-not-exist message and keeps the current
directory. -/
theorem change_directory_failure_messages_witness :
    change_directory ⟨[], []⟩ ["home", "agent_workspace"] []
        "nonexistent-folder" =
      .ok ([], "Directory does not exist: nonexistent-folder") :=
  (change_directory_failure_messages ⟨[], []⟩ ["home", "agent_workspace"]
    [] "nonexistent-folder" ["home", "agent_workspace", "nonexistent-folder"]
    (by decide) (by decide) (by decide)).2.1 (by decide) (by decide)

/-- C2: CurrentDirectory always resolves under WorkspaceRoot.  The initial
value is the workspace root itself; the five tool operations take the
current directory read-only (their embeddings return no new current
directory at all); and `change_directory` — the sole mutator — preserves
the invariant: whenever it returns normally, the new current directory is
clean and `WORKSPACE / CURRENT_DIR` canonicalizes to a location under
WorkspaceRoot.  Candidates that would break the invariant fail closed (a
message branch keeps the old value, the sibling corner raises); nothing is
clamped. -/
theorem current_directory_invariant (fs : FS) (ws cur ncur : List String)
    (arg msg : String) (hws : CleanPath ws) (hcur : CleanPath cur)
    (h : change_directory fs ws cur arg = .ok (ncur, msg)) :
    CleanPath ncur ∧ resolveComps (ws ++ ncur) = ws ++ ncur ∧
    ws <+: resolveComps (ws ++ ncur) ∧
    resolveComps (ws ++ ([] : List String)) = ws := by
  have hwsid : resolveComps (ws ++ ([] : List String)) = ws := by
    rw [List.append_nil]; exact resolveComps_of_clean ws hws
  have base : ∀ l : List String, CleanPath l →
      CleanPath l ∧ resolveComps (ws ++ l) = ws ++ l ∧
      ws <+: resolveComps (ws ++ l) ∧
      resolveComps (ws ++ ([] : List String)) = ws := by
    intro l hl
    have hall : CleanPath (ws ++ l) := by
      intro c hc
      rcases List.mem_append.mp hc with hc | hc
      exacts [hws c hc, hl c hc]
    refine ⟨hl, resolveComps_of_clean _ hall, ?_, hwsid⟩
    rw [resolveComps_of_clean _ hall]
    exact List.prefix_append ws l
  have hnil : CleanPath ([] : List String) := by intro c hc; cases hc
  have hcc : CleanPath (cdCandidate ws cur (stripQuotes (pyStrip arg))) := by
    unfold cdCandidate
    split <;> exact resolveComps_clean _
  simp only [change_directory] at h
  split at h
  · injection h with h'
    injection h' with hn hm
    exact hn ▸ base [] hnil
  · split at h
    · injection h with h'
      injection h' with hn hm
      exact hn ▸ base [] hnil
    · split at h
      · injection h with h'
        injection h' with hn hm
        exact hn ▸ base cur hcur
      · split at h
        · injection h with h'
          injection h' with hn hm
          exact hn ▸ base cur hcur
        · split at h
          · injection h with h'
            injection h' with hn hm
            exact hn ▸ base cur hcur
          · split at h
            · exact absurd h (by simp)
            · rename_i rel heq
              injection h with h'
              injection h' with hn hm
              subst hn
              unfold relativeToWs at heq
              split at heq
              · injection heq with hrel
                rename_i hpre
                rcases List.isPrefixOf_iff_prefix.mp hpre with ⟨t, ht⟩
                have hdrop :
                    (cdCandidate ws cur (stripQuotes (pyStrip arg))).drop
                      ws.length = t := by
                  rw [← ht, List.drop_left]
                have hwst : ws ++ rel =
                    cdCandidate ws cur (stripQuotes (pyStrip arg)) := by
                  rw [← hrel, hdrop, ht]
                have hclean : CleanPath rel := by
                  intro c hc
                  refine hcc c ?_
                  rw [← hrel] at hc
                  exact List.mem_of_mem_drop hc
                refine ⟨hclean, ?_, ?_, hwsid⟩
                · rw [hwst, resolveComps_of_clean _ hcc]
                · rw [hwst, resolveComps_of_clean _ hcc, ← hwst]
                  exact List.prefix_append ws rel
              · cases heq

/-- Witness for C2: `cd proj` into an existing project directory. -/
theorem current_directory_invariant_witness :
    CleanPath ["proj"] ∧
    resolveComps (["home", "agent_workspace"] ++ ["proj"]) =
      ["home", "agent_workspace"] ++ ["proj"] ∧
    ["home", "agent_workspace"] <+:
      resolveComps (["home", "agent_workspace"] ++ ["proj"]) ∧
    resolveComps (["home", "agent_workspace"] ++ ([] : List String)) =
      ["home", "agent_workspace"] :=
  current_directory_invariant ⟨[], [["home", "agent_workspace", "proj"]]⟩
    ["home", "agent_workspace"] [] ["proj"] "proj" "Current directory: /proj"
    (by decide) (by decide) rfl

/-- Reading an in-workspace text file of at most 4000 characters returns its
full content behind the `"File content of …"` header. -/
theorem tool_read_file_ok (fs : FS) (ws cur p : List String) (path c : String)
    (hsp : safe_path ws cur path = .ok p)
    (hunder : ws.isPrefixOf p = true)
    (hf : fs.lookupFile p = some c)
    (hlen : c.length ≤ 4000) :
    tool_read_file fs ws cur path =
      (fs, .ok ("File content of " ++ renderRel (p.drop ws.length) ++ ":\n"
        ++ c)) := by
  have hisFile : fs.isFile p = true := by simp [FS.isFile, hf]
  have hex : fs.pathExists p = true := by simp [FS.pathExists, hisFile]
  have hrel : relativeToWs ws p = some (p.drop ws.length) := by
    simp [relativeToWs, hunder]
  simp only [tool_read_file, hsp, hf, hrel, Option.getD_some]
  rw [if_neg (by simp [hex, hisFile]), if_neg (by omega)]

/-- C3: for an in-workspace path, writing with `append=false` then reading
returns exactly the written content (at most 4000 characters, so untruncated,
after the reader's header); and two `append=true` writes to an initially
absent file leave the file holding the first content immediately followed by
the second. -/
theorem write_then_read_roundtrip (fs : FS) (ws cur p : List String)
    (path content c₁ c₂ : String)
    (hsp : safe_path ws cur path = .ok p)
    (hunder : ws.isPrefixOf p = true)
    (hlen : content.length ≤ 4000)
    (hfresh : fs.lookupFile p = none) :
    (tool_write_file fs ws cur path content false).1.lookupFile p =
      some content ∧
    (tool_read_file (tool_write_file fs ws cur path content false).1
        ws cur path).2 =
      .ok ("File content of " ++ renderRel (p.drop ws.length) ++ ":\n"
        ++ content) ∧
    (tool_write_file (tool_write_file fs ws cur path c₁ true).1
        ws cur path c₂ true).1.lookupFile p = some (c₁ ++ c₂) := by
  have hrel : relativeToWs ws p = some (p.drop ws.length) := by
    simp [relativeToWs, hunder]
  have hwrite : ∀ (g : FS) (cc : String) (app : Bool),
      (tool_write_file g ws cur path cc app).1.lookupFile p =
        some ((if app then (g.lookupFile p).getD "" else "") ++ cc) := by
    intro g cc app
    simp only [tool_write_file, hsp, hrel]
    simp [FS.lookupFile]
  have h₁ : (tool_write_file fs ws cur path content false).1.lookupFile p =
      some content := by
    simpa using hwrite fs content false
  refine ⟨h₁, ?_, ?_⟩
  · have := tool_read_file_ok (tool_write_file fs ws cur path content false).1
      ws cur p path content hsp hunder h₁ hlen
    rw [this]
  · have ha₁ : (tool_write_file fs ws cur path c₁ true).1.lookupFile p =
        some c₁ := by
      simpa [hfresh] using hwrite fs c₁ true
    simpa [ha₁] using
      hwrite (tool_write_file fs ws cur path c₁ true).1 c₂ true

/-- Witness for C3 in a fresh workspace. -/
theorem write_then_read_roundtrip_witness :
    (tool_write_file ⟨[], []⟩ ["home", "agent_workspace"] [] "notes.txt"
        "hello" false).1.lookupFile
      ["home", "agent_workspace", "notes.txt"] = some "hello" ∧
    (tool_read_file (tool_write_file ⟨[], []⟩ ["home", "agent_workspace"] []
        "notes.txt" "hello" false).1 ["home", "agent_workspace"] []
        "notes.txt").2 =
      .ok ("File content of "
        ++ renderRel (["home", "agent_workspace", "notes.txt"].drop
          ["home", "agent_workspace"].length) ++ ":\n" ++ "hello") ∧
    (tool_write_file (tool_write_file ⟨[], []⟩ ["home", "agent_workspace"] []
        "notes.txt" "ab" true).1 ["home", "agent_workspace"] [] "notes.txt"
        "cd" true).1.lookupFile ["home", "agent_workspace", "notes.txt"] =
      some ("ab" ++ "cd") :=
  write_then_read_roundtrip ⟨[], []⟩ ["home", "agent_workspace"] []
    ["home", "agent_workspace", "notes.txt"] "notes.txt" "hello" "ab" "cd"
    rfl (by decide) (by decide) rfl

/-- C4: reading a file whose decoded content exceeds 4000 characters returns
the truncation header, then exactly the first 4000 characters, then the
explicit `...[truncated]...` marker — and nothing else: the emitted slice
has length exactly 4000 and equals the first 4000 characters of the
content. -/
theorem read_file_truncates (fs : FS) (ws cur p : List String)
    (path c : String)
    (hsp : safe_path ws cur path = .ok p)
    (hf : fs.lookupFile p = some c)
    (hlen : c.length > 4000) :
    (tool_read_file fs ws cur path).2 =
      .ok ("File content (truncated to 4000 characters):\n"
        ++ strTake c 4000 ++ "\n...[truncated]...") ∧
    (strTake c 4000).length = 4000 ∧
    (strTake c 4000).data = c.data.take 4000 := by
  have hisFile : fs.isFile p = true := by simp [FS.isFile, hf]
  have hex : fs.pathExists p = true := by simp [FS.pathExists, hisFile]
  refine ⟨?_, ?_, rfl⟩
  · simp only [tool_read_file, hsp, hf, Option.getD_some]
    rw [if_neg (by simp [hex, hisFile]), if_pos (by omega)]
  · have : c.length = c.data.length := rfl
    simp only [strTake, String.length_mk, List.length_take]
    omega

/-- Witness for C4: a 4001-character file. -/
theorem read_file_truncates_witness :
    ((tool_read_file
        ⟨[(["home", "agent_workspace", "big.txt"],
            String.mk (List.replicate 4001 'a'))], []⟩
        ["home", "agent_workspace"] [] "big.txt").2 =
      .ok ("File content (truncated to 4000 characters):\n"
        ++ strTake (String.mk (List.replicate 4001 'a')) 4000
        ++ "\n...[truncated]...")) ∧
    (strTake (String.mk (List.replicate 4001 'a')) 4000).length = 4000 ∧
    (strTake (String.mk (List.replicate 4001 'a')) 4000).data =
      (String.mk (List.replicate 4001 'a')).data.take 4000 :=
  read_file_truncates _ ["home", "agent_workspace"] []
    ["home", "agent_workspace", "big.txt"]
    "big.txt" (String.mk (List.replicate 4001 'a')) rfl rfl
    (by rw [gt_iff_lt, String.length_mk, List.length_replicate]; omega)

/-- Two appends with distinct leading characters are never equal. -/
theorem append_ne_append_of_head (x y a b : String) (cx cy : Char)
    (hx : x.data.head? = some cx) (hy : y.data.head? = some cy)
    (hne : cx ≠ cy) : x ++ a ≠ y ++ b := by
  intro h
  have hd := congrArg (fun s => s.data.head?) h
  simp only [String.data_append, List.head?_append, hx, hy] at hd
  simp only [Option.or] at hd
  exact hne (Option.some.inj hd)

/-- Sortedness of `sorted(p.iterdir())`: the child entries are sorted by name. -/
theorem childEntries_sorted (fs : FS) (p : List String) :
    (fs.childEntries p).Pairwise fun a b : String × Bool => a.1 ≤ b.1 := by
  haveI : IsTotal (String × Bool) fun a b => a.1 ≤ b.1 :=
    ⟨fun a b => le_total a.1 b.1⟩
  haveI : IsTrans (String × Bool) fun a b => a.1 ≤ b.1 :=
    ⟨fun a b c => le_trans⟩
  simp only [FS.childEntries]
  exact List.sorted_insertionSort _ _

/-- C9: `list_directory` answers a missing path, an existing non-directory
path, and an existing empty directory with three explicit, pairwise-distinct
messages (the empty case says "(empty directory)" rather than returning an
empty result), and lists a non-empty directory as its child entries in
sorted name order, each line marking directories with `"/ "` and files with
`"  "`. -/
theorem list_directory_reports (fs : FS) (ws cur p : List String)
    (path : String)
    (hsp : safe_path ws cur path = .ok p)
    (hunder : ws.isPrefixOf p = true) :
    (fs.pathExists p = false →
      (tool_list_directory fs ws cur path).2 =
        .ok ("Directory does not exist: " ++ renderRel (p.drop ws.length))) ∧
    (fs.pathExists p = true → fs.isDir p = false →
      (tool_list_directory fs ws cur path).2 =
        .ok ("Path is not a directory: " ++ renderRel (p.drop ws.length))) ∧
    (fs.isDir p = true → fs.childEntries p = [] →
      (tool_list_directory fs ws cur path).2 =
        .ok ("Listing for " ++ renderRel (p.drop ws.length)
          ++ ":\n" ++ "(empty directory)")) ∧
    (fs.isDir p = true →
      ((fs.childEntries p).Pairwise fun a b => a.1 ≤ b.1) ∧
      (fs.childEntries p ≠ [] →
        (tool_list_directory fs ws cur path).2 =
          .ok ("Listing for " ++ renderRel (p.drop ws.length) ++ ":\n"
            ++ joinWith "\n" ((fs.childEntries p).map fun e =>
              (if e.2 then "/ " else "  ") ++ e.1)))) ∧
    (∀ r₁ r₂ : List String,
      "Directory does not exist: " ++ renderRel r₁ ≠
        "Path is not a directory: " ++ renderRel r₂ ∧
      "Directory does not exist: " ++ renderRel r₁ ≠
        "Listing for " ++ (renderRel r₂ ++ (":\n" ++ "(empty directory)")) ∧
      "Path is not a directory: " ++ renderRel r₁ ≠
        "Listing for " ++ (renderRel r₂ ++ (":\n" ++ "(empty directory)"))) := by
  have hrel : relativeToWs ws p = some (p.drop ws.length) := by
    simp [relativeToWs, hunder]
  refine ⟨?_, ?_, ?_, ?_, ?_⟩
  · intro h1
    simp only [tool_list_directory, hsp, hrel]
    rw [if_pos (by simp [h1])]
  · intro h1 h2
    simp only [tool_list_directory, hsp, hrel]
    rw [if_neg (by simp [h1]), if_pos (by simp [h2])]
  · intro h1 h2
    have hex : fs.pathExists p = true := by simp [FS.pathExists, h1]
    simp only [tool_list_directory, hsp, hrel, h2]
    rw [if_neg (by simp [hex]), if_neg (by simp [h1])]
    rfl
  · intro h1
    refine ⟨childEntries_sorted fs p, ?_⟩
    intro h2
    have hex : fs.pathExists p = true := by simp [FS.pathExists, h1]
    simp only [tool_list_directory, hsp, hrel]
    rw [if_neg (by simp [hex]), if_neg (by simp [h1]),
      if_neg (by simp [List.isEmpty_eq_true, h2])]
  · intro r₁ r₂
    refine ⟨?_, ?_, ?_⟩
    · exact append_ne_append_of_head _ _ _ _ 'D' 'P' rfl rfl (by decide)
    · exact append_ne_append_of_head _ _ _ _ 'D' 'L' rfl rfl (by decide)
    · exact append_ne_append_of_head _ _ _ _ 'P' 'L' rfl rfl (by decide)

/-- Witness for C9: an empty directory and a missing path. -/
theorem list_directory_reports_witness :
    (tool_list_directory ⟨[], [["home", "agent_workspace", "d"]]⟩
        ["home", "agent_workspace"] [] "missing").2 =
      .ok ("Directory does not exist: "
        ++ renderRel (["home", "agent_workspace", "missing"].drop
          ["home", "agent_workspace"].length)) ∧
    (tool_list_directory ⟨[], [["home", "agent_workspace", "d"]]⟩
        ["home", "agent_workspace"] [] "d").2 =
      .ok ("Listing for "
        ++ renderRel (["home", "agent_workspace", "d"].drop
          ["home", "agent_workspace"].length)
        ++ ":\n" ++ "(empty directory)") :=
  ⟨(list_directory_reports ⟨[], [["home", "agent_workspace", "d"]]⟩
      ["home", "agent_workspace"] [] ["home", "agent_workspace", "missing"]
      "missing" rfl (by decide)).1 (by decide),
   (list_directory_reports ⟨[], [["home", "agent_workspace", "d"]]⟩
      ["home", "agent_workspace"] [] ["home", "agent_workspace", "d"]
      "d" rfl (by decide)).2.2.1 (by decide) (by decide)⟩

/-- C6: the orchestrator's dispatch step always produces a text result and
never lets an exception escape: a payload whose JSON parse failed becomes an
error text; an unrecognized tool name becomes the "unknown tool" text; a
raising tool implementation becomes the "Error while running tool" text
carrying the underlying description; and a normal result is passed through —
so the conversation loop always receives a tool-result message and
proceeds. -/
theorem dispatch_always_text (sh : List String → String → String) (fs : FS)
    (ws cur : List String) (name : String)
    (payload : Except String ToolArgs) :
    (∀ e, payload = .error e →
      dispatchToolCall sh fs ws cur name payload =
        (fs, "Error: could not parse arguments for tool '" ++ name
          ++ "': " ++ e)) ∧
    (∀ args, payload = .ok args → lookupTool name = none →
      dispatchToolCall sh fs ws cur name payload =
        (fs, "Error: unknown tool '" ++ name ++ "'.")) ∧
    (∀ args t fs₁ e, payload = .ok args → lookupTool name = some t →
      callTool sh fs ws cur t args = (fs₁, .error e) →
      dispatchToolCall sh fs ws cur name payload =
        (fs₁, "Error while running tool '" ++ name ++ "': " ++ e)) ∧
    (∀ args t fs₁ r, payload = .ok args → lookupTool name = some t →
      callTool sh fs ws cur t args = (fs₁, .ok r) →
      dispatchToolCall sh fs ws cur name payload = (fs₁, r)) := by
  refine ⟨?_, ?_, ?_, ?_⟩
  · intro e he; subst he; rfl
  · intro args hp hl; subst hp
    simp only [dispatchToolCall, hl]
  · intro args t fs₁ e hp hl hc; subst hp
    simp only [dispatchToolCall, hl, hc]
  · intro args t fs₁ r hp hl hc; subst hp
    simp only [dispatchToolCall, hl, hc]

/-- Witness for C6: a parse failure, an unknown tool name, and an
out-of-workspace `read_file` call (whose `ValueError` is converted to the
error text), each at concrete inputs. -/
theorem dispatch_always_text_witness :
    (dispatchToolCall (fun _ _ => "") ⟨[], []⟩ ["home", "agent_workspace"]
        [] "write_file" (.error "Expecting value: line 1 column 1 (char 0)") =
      (⟨[], []⟩, "Error: could not parse arguments for tool 'write_file': "
        ++ "Expecting value: line 1 column 1 (char 0)")) ∧
    (dispatchToolCall (fun _ _ => "") ⟨[], []⟩ ["home", "agent_workspace"]
        [] "delete_everything" (.ok {}) =
      (⟨[], []⟩, "Error: unknown tool 'delete_everything'.")) ∧
    (dispatchToolCall (fun _ _ => "") ⟨[], []⟩ ["home", "agent_workspace"]
        [] "read_file" (.ok { path := some "../../etc/passwd" }) =
      (⟨[], []⟩, "Error while running tool 'read_file': "
        ++ "Refusing to access path outside workspace: /etc/passwd")) :=
  ⟨(dispatch_always_text (fun _ _ => "") ⟨[], []⟩ ["home", "agent_workspace"]
      [] "write_file" (.error "Expecting value: line 1 column 1 (char 0)")).1
      _ rfl,
   (dispatch_always_text (fun _ _ => "") ⟨[], []⟩ ["home", "agent_workspace"]
      [] "delete_everything" (.ok {})).2.1 {} rfl rfl,
   (dispatch_always_text (fun _ _ => "") ⟨[], []⟩ ["home", "agent_workspace"]
      [] "read_file" (.ok { path := some "../../etc/passwd" })).2.2.1
      { path := some "../../etc/passwd" } .read_file ⟨[], []⟩
      "Refusing to access path outside workspace: /etc/passwd" rfl rfl rfl⟩

end Agent
